import Mathlib

/-!
Verification of the `browser_use` screenshot plugin
(`src/browser_use/plugins/screenshot/service.py` and
`src/browser_use/plugins/screenshot/integration.py`).

The Python code is shallowly embedded: each method of `ScreenshotPlugin`
becomes a pure Lean function that takes the plugin state explicitly and
returns the updated plugin state, the list of externally visible effects
(directory creations, file writes, log records) and an `Except` value
recording whether the Python call raised an exception.  File-system write
failures are modelled by an oracle `FS : String → Bool` telling, for each
path, whether opening the file for writing succeeds; directory creation
(`Path.mkdir(parents=True, exist_ok=True)`) is modelled as always
succeeding and is recorded as an effect.  `datetime.now()` values are
passed in as explicit string parameters.  JSON documents are modelled by
the inductive type `Json`; `json.loads` is modelled by the executable
parser `jsonParse` (standard JSON: null, booleans, numbers, strings with
the usual escapes, arrays, objects), and `json.dumps` of a value is
modelled by recording the `Json` value itself in the write effect.
-/

/-- JSON values, as produced by the Python `json` module.  Numbers are kept
as a decimal mantissa together with a power-of-ten exponent, so integers
(`exp10 = 0`, no fractional part) stay distinguishable from floats, as in
Python. -/
inductive Json where
  | null : Json
  | bool (b : Bool) : Json
  | num (mantissa : Int) (exp10 : Int) : Json
  | str (s : String) : Json
  | arr (elems : List Json) : Json
  | obj (fields : List (String × Json)) : Json

/-- JSON whitespace, as accepted between tokens by `json.loads`. -/
def isJsonWs (c : Char) : Bool :=
  c = ' ' || c = '\t' || c = '\n' || c = '\r'

/-- Drop leading JSON whitespace. -/
def skipWs (cs : List Char) : List Char :=
  cs.dropWhile isJsonWs

/-- Value of a hexadecimal digit. -/
def hexVal (c : Char) : Option Nat :=
  if '0' ≤ c ∧ c ≤ '9' then some (c.toNat - 48)
  else if 'a' ≤ c ∧ c ≤ 'f' then some (c.toNat - 97 + 10)
  else if 'A' ≤ c ∧ c ≤ 'F' then some (c.toNat - 65 + 10)
  else none

/-- Translation of a JSON single-character escape. -/
def escCharOf (c : Char) : Option Char :=
  if c = '"' then some '"'
  else if c = '\\' then some '\\'
  else if c = '/' then some '/'
  else if c = 'n' then some '\n'
  else if c = 't' then some '\t'
  else if c = 'r' then some '\r'
  else if c = 'b' then some (Char.ofNat 8)
  else if c = 'f' then some (Char.ofNat 12)
  else none

/-- Parse the body of a JSON string literal (the opening quote already
consumed), returning the decoded characters and the input that remains
after the closing quote. -/
def parseStringBody : List Char → Option (List Char × List Char)
  | [] => none
  | '"' :: rest => some ([], rest)
  | '\\' :: 'u' :: a :: b :: c :: d :: rest => do
    let ha ← hexVal a
    let hb ← hexVal b
    let hc ← hexVal c
    let hd ← hexVal d
    let (s, r) ← parseStringBody rest
    some (Char.ofNat (((ha * 16 + hb) * 16 + hc) * 16 + hd) :: s, r)
  | '\\' :: e :: rest => do
    let ec ← escCharOf e
    let (s, r) ← parseStringBody rest
    some (ec :: s, r)
  | c :: rest => do
    let (s, r) ← parseStringBody rest
    some (c :: s, r)

/-- Numeric value of a list of decimal digits. -/
def natOfDigits (ds : List Char) : Nat :=
  ds.foldl (fun acc c => acc * 10 + (c.toNat - 48)) 0

/-- Parse the optional exponent part of a JSON number.  Returns the
exponent (0 when absent) and the remaining input; the `e`/`E` is consumed
only when it is followed by a well-formed exponent. -/
def parseExponent (cs : List Char) : Int × List Char :=
  match cs with
  | e :: rest =>
    if e = 'e' ∨ e = 'E' then
      match rest with
      | '+' :: r2 =>
        let (ds, r3) := r2.span Char.isDigit
        if ds.isEmpty then (0, cs) else ((natOfDigits ds : Int), r3)
      | '-' :: r2 =>
        let (ds, r3) := r2.span Char.isDigit
        if ds.isEmpty then (0, cs) else (-(natOfDigits ds : Int), r3)
      | r2 =>
        let (ds, r3) := r2.span Char.isDigit
        if ds.isEmpty then (0, cs) else ((natOfDigits ds : Int), r3)
    else (0, cs)
  | [] => (0, cs)

/-- Parse a JSON number (grammar: `-? int frac? exp?`, no leading zeros). -/
def parseNumber (cs : List Char) : Option (Json × List Char) :=
  let (neg, cs1) := match cs with
    | '-' :: t => (true, t)
    | _ => (false, cs)
  let (ids, cs2) := cs1.span Char.isDigit
  if ids.isEmpty then none
  else if ids.length > 1 ∧ ids.head? = some '0' then none
  else
    let (fds, cs3) := match cs2 with
      | '.' :: t => t.span Char.isDigit
      | _ => ([], cs2)
    let hadDot := match cs2 with
      | '.' :: _ => true
      | _ => false
    if hadDot ∧ fds.isEmpty then none
    else
      let (expv, cs4) := parseExponent cs3
      let mant : Int := (natOfDigits (ids ++ fds) : Int)
      let mant := if neg then -mant else mant
      some (Json.num mant (expv - (fds.length : Int)), cs4)

mutual

/-- Fuel-indexed parser for one JSON value; models `json.loads`'s
recursive-descent grammar.  Fuel only bounds recursion depth and loop
length; it is chosen generously at the top level. -/
def parseValue : Nat → List Char → Option (Json × List Char)
  | 0, _ => none
  | f + 1, cs =>
    match skipWs cs with
    | 'n' :: 'u' :: 'l' :: 'l' :: r => some (Json.null, r)
    | 't' :: 'r' :: 'u' :: 'e' :: r => some (Json.bool true, r)
    | 'f' :: 'a' :: 'l' :: 's' :: 'e' :: r => some (Json.bool false, r)
    | '"' :: r =>
      match parseStringBody r with
      | some (s, rest) => some (Json.str s.asString, rest)
      | none => none
    | '[' :: r =>
      match skipWs r with
      | ']' :: t => some (Json.arr [], t)
      | r1 =>
        match parseValue f r1 with
        | some (v, r2) => parseArrayRest f [v] r2
        | none => none
    | '{' :: r =>
      match skipWs r with
      | '}' :: t => some (Json.obj [], t)
      | r1 =>
        match parseMember f r1 with
        | some (kv, r2) => parseObjectRest f [kv] r2
        | none => none
    | other => parseNumber other

/-- Remaining elements of a JSON array after the first one. -/
def parseArrayRest : Nat → List Json → List Char → Option (Json × List Char)
  | 0, _, _ => none
  | f + 1, acc, cs =>
    match skipWs cs with
    | ']' :: t => some (Json.arr acc.reverse, t)
    | ',' :: t =>
      match parseValue f t with
      | some (v, r2) => parseArrayRest f (v :: acc) r2
      | none => none
    | _ => none

/-- One `"key": value` member of a JSON object. -/
def parseMember : Nat → List Char → Option ((String × Json) × List Char)
  | 0, _ => none
  | f + 1, cs =>
    match skipWs cs with
    | '"' :: r =>
      match parseStringBody r with
      | some (k, r1) =>
        match skipWs r1 with
        | ':' :: r2 =>
          match parseValue f r2 with
          | some (v, r3) => some ((k.asString, v), r3)
          | none => none
        | _ => none
      | none => none
    | _ => none

/-- Remaining members of a JSON object after the first one. -/
def parseObjectRest : Nat → List (String × Json) → List Char →
    Option (Json × List Char)
  | 0, _, _ => none
  | f + 1, acc, cs =>
    match skipWs cs with
    | '}' :: t => some (Json.obj acc.reverse, t)
    | ',' :: t =>
      match parseMember f t with
      | some (kv, r2) => parseObjectRest f (kv :: acc) r2
      | none => none
    | _ => none

end

/-- Model of `json.loads`: parse one value, allow trailing whitespace,
reject anything else left over. -/
def jsonParse (s : String) : Option Json :=
  match parseValue (2 * s.length + 8) s.data with
  | some (v, rest) => if (skipWs rest).isEmpty then some v else none
  | none => none

/-- Whitespace as matched by the regex class `\s` (ASCII part), used by
the `\s*` groups of the fenced-block pattern in `JSON_to_dict`. -/
def isPySpace (c : Char) : Bool :=
  c = ' ' || c = '\t' || c = '\n' || c = '\r' || c = '\x0b' || c = '\x0c'

/-- Strip trailing regex whitespace. -/
def dropTrailWs (cs : List Char) : List Char :=
  (cs.reverse.dropWhile isPySpace).reverse

/-- Strip leading and trailing regex whitespace. -/
def trimPy (cs : List Char) : List Char :=
  dropTrailWs (cs.dropWhile isPySpace)

/-- Characters strictly before the first occurrence of `pat` (a non-empty
pattern); `none` when `pat` does not occur. -/
def takeBeforeSub (pat : List Char) : List Char → Option (List Char)
  | [] => none
  | c :: cs =>
    if pat.isPrefixOf (c :: cs) then some []
    else
      match takeBeforeSub pat cs with
      | some pre => some (c :: pre)
      | none => none

/-- Model of `re.search(r'(three backticks)json\s*(.*?)\s*(three backticks)',
text, re.DOTALL)`: find the leftmost opening fence; the captured group is
the text up to the first closing fence after it, with surrounding `\s`
characters absorbed by the greedy `\s*` before the lazy group and the
`\s*` before the closing fence.  When the leftmost opening fence has no
closing fence anywhere after it, no later opening fence can have one
either (any later opening fence itself contains three backticks), so the
whole search fails. -/
def fenceSearch : List Char → Option String
  | [] => none
  | c :: cs =>
    if ("```json".data).isPrefixOf (c :: cs) then
      match takeBeforeSub ("```".data) ((c :: cs).drop 7) with
      | some seg => some (trimPy seg).asString
      | none => none
    else fenceSearch cs

/-- Value of a base64 alphabet character. -/
def b64Val (c : Char) : Option Nat :=
  if 'A' ≤ c ∧ c ≤ 'Z' then some (c.toNat - 65)
  else if 'a' ≤ c ∧ c ≤ 'z' then some (c.toNat - 97 + 26)
  else if '0' ≤ c ∧ c ≤ '9' then some (c.toNat - 48 + 52)
  else if c = '+' then some 62
  else if c = '/' then some 63
  else none

/-- Decode base64 four-character groups into bytes; padding (`=`) is only
accepted at the very end. -/
def b64chunks : List Char → Option (List Nat)
  | [] => some []
  | [a, b, '=', '='] => do
    let va ← b64Val a
    let vb ← b64Val b
    some [(va * 4 + vb / 16) % 256]
  | [a, b, c, '='] => do
    let va ← b64Val a
    let vb ← b64Val b
    let vc ← b64Val c
    let n := (va * 64 + vb) * 64 + vc
    some [n / 1024 % 256, n / 4 % 256]
  | a :: b :: c :: d :: rest => do
    let va ← b64Val a
    let vb ← b64Val b
    let vc ← b64Val c
    let vd ← b64Val d
    let n := ((va * 64 + vb) * 64 + vc) * 64 + vd
    let tl ← b64chunks rest
    some (n / 65536 % 256 :: n / 256 % 256 :: n % 256 :: tl)
  | _ => none

/-- Model of `base64.b64decode` with its default lenient validation:
characters outside the alphabet and `=` are discarded, then the remainder
must decode in groups of four. -/
def b64decode (s : String) : Option (List Nat) :=
  b64chunks (s.data.filter (fun c => (b64Val c).isSome || c = '='))

/-- Zero-pad a digit string on the left to width `w`. -/
def padZeros (s : String) (w : Nat) : String :=
  String.mk (List.replicate (w - s.length) '0') ++ s

/-- Python `f"\x7bn:03d\x7d"`: minimum width 3 counting the sign. -/
def fmt03d (n : Int) : String :=
  if n < 0 then "-" ++ padZeros (toString n.natAbs) 2
  else padZeros (toString n.natAbs) 3

/-- Contents written to a file: raw bytes for screenshots, or a JSON
document (standing for its `json.dumps` serialization) for the `.json`
artifacts. -/
inductive FileData where
  | bin (bytes : List Nat) : FileData
  | jsonText (j : Json) : FileData

/-- Externally visible effects of the plugin: directory creation, file
writes, and log records at the three levels the code uses. -/
inductive Effect where
  | mkdir (path : String) : Effect
  | fileWrite (path : String) (data : FileData) : Effect
  | logInfo (msg : String) : Effect
  | logWarning (msg : String) : Effect
  | logError (msg : String) : Effect

/-- File-system oracle: for each path, whether opening the file for
writing succeeds.  `false` models an `OSError` raised by `open`. -/
def FS : Type := String → Bool

/-- The fields of `browser_use.browser.views.BrowserState` the plugin
reads: just the optional base64 screenshot string. -/
structure BrowserState where
  screenshot : Option String

/-- The fields of `AgentOutput` the plugin reads; `model_dump()` results
are modelled as opaque `Json` values. -/
structure AgentOutput where
  current_state : Option Json
  action : List Json

/-- The fields of `ActionResult` that `save_results` serializes. -/
structure ActionResult where
  extracted_content : Option String
  error : Option String
  success : Option Bool
  is_done : Option Bool
  include_in_memory : Bool

/-- State of a `ScreenshotPlugin` instance (its `__init__` fields). -/
structure ScreenshotPlugin where
  base_dir : String
  save_plans : Bool
  full_page : Bool
  current_step : Int
  plans : List Json
  current_timestamp : String

/-- `ScreenshotPlugin.__init__`: field initialisation plus the base
directory creation; `now` is the `datetime.now().strftime(...)` value. -/
def ScreenshotPlugin.init (base_dir : String) (save_plans full_page : Bool)
    (now : String) : ScreenshotPlugin × List Effect :=
  ({ base_dir := base_dir, save_plans := save_plans, full_page := full_page,
     current_step := 0, plans := [], current_timestamp := now },
   [Effect.mkdir base_dir])

/-- `ScreenshotPlugin._create_execute_dir`: the step directory path and
its (idempotent) creation. -/
def ScreenshotPlugin.create_execute_dir (p : ScreenshotPlugin)
    (step_number : Int) : String × List Effect :=
  let dir_path :=
    p.base_dir ++ "/execute_" ++ fmt03d step_number ++ "_" ++
      p.current_timestamp
  (dir_path, [Effect.mkdir dir_path])

/-- The step directory path as a standalone function (the first component
of `create_execute_dir`). -/
def dirOf (p : ScreenshotPlugin) (step_number : Int) : String :=
  p.base_dir ++ "/execute_" ++ fmt03d step_number ++ "_" ++
    p.current_timestamp

/-- `ScreenshotPlugin.save_screenshot`.  The decode-and-write block sits
inside `try/except`, so neither a bad base64 string nor a failing `open`
raises; an absent (or empty, hence falsy) screenshot only logs a
warning.  The intended path is returned in every case. -/
def ScreenshotPlugin.save_screenshot (p : ScreenshotPlugin) (fs : FS)
    (state : BrowserState) (result_index : Int) (step_number : Option Int) :
    ScreenshotPlugin × List Effect × Except Unit String :=
  let step := step_number.getD p.current_step
  let (execute_dir, e0) := p.create_execute_dir step
  let screenshot_path :=
    execute_dir ++ "/screenshot_" ++ toString result_index ++ ".png"
  match state.screenshot with
  | some shot =>
    if shot = "" then
      (p, e0 ++ [Effect.logWarning ("No screenshot available in browser state")],
       Except.ok screenshot_path)
    else
      match b64decode shot with
      | some bytes =>
        if fs screenshot_path then
          (p, e0 ++ [Effect.fileWrite screenshot_path (FileData.bin bytes),
                     Effect.logInfo ("Screenshot saved to " ++ screenshot_path)],
           Except.ok screenshot_path)
        else
          (p, e0 ++ [Effect.logError ("Error saving screenshot")],
           Except.ok screenshot_path)
      | none =>
        (p, e0 ++ [Effect.logError ("Error saving screenshot")],
         Except.ok screenshot_path)
  | none =>
    (p, e0 ++ [Effect.logWarning ("No screenshot available in browser state")],
     Except.ok screenshot_path)

/-- The `plan_data` document `save_plan` builds for one step. -/
def planJson (step : Int) (nowIso : String) (mo : AgentOutput) : Json :=
  Json.obj
    [("step_number", Json.num step 0),
     ("timestamp", Json.str nowIso),
     ("current_state", mo.current_state.getD Json.null),
     ("actions", Json.arr mo.action)]

/-- `ScreenshotPlugin.save_plan`.  The plan is appended to the in-memory
ledger before the file write; the write itself is not wrapped in any
handler, so a failing `open` raises (modelled by `Except.error`). -/
def ScreenshotPlugin.save_plan (p : ScreenshotPlugin) (fs : FS)
    (model_output : AgentOutput) (step_number : Option Int) (nowIso : String) :
    ScreenshotPlugin × List Effect × Except Unit String :=
  if p.save_plans = false then (p, [], Except.ok "")
  else
    let step := step_number.getD p.current_step
    let (execute_dir, e0) := p.create_execute_dir step
    let plan_data := planJson step nowIso model_output
    let p1 := { p with plans := p.plans ++ [plan_data] }
    let plan_path := execute_dir ++ "/plan.json"
    if fs plan_path then
      (p1, e0 ++ [Effect.fileWrite plan_path (FileData.jsonText plan_data),
                  Effect.logInfo ("Plan saved to " ++ plan_path)],
       Except.ok plan_path)
    else (p1, e0, Except.error ())

/-- `ScreenshotPlugin.JSON_to_dict`: extract the fenced `json` block and
parse it; on parse failure or when there is no fenced block, return the
original text. -/
def JSON_to_dict (text : String) : Json :=
  match fenceSearch text.data with
  | some seg =>
    match jsonParse seg with
    | some v => v
    | none => Json.str text
  | none => Json.str text

/-- Encoding of an optional boolean field into JSON (`None` → `null`). -/
def encOptBool : Option Bool → Json
  | some b => Json.bool b
  | none => Json.null

/-- Encoding of an optional string field into JSON (`None` → `null`). -/
def encOptStr : Option String → Json
  | some s => Json.str s
  | none => Json.null

/-- The dictionary `save_results` builds for one `ActionResult`.  The
`extracted_content` branch is chosen by Python truthiness, so both `None`
and the empty string yield `null`. -/
def resultEntry (r : ActionResult) : Json :=
  Json.obj
    [("extracted_content",
      match r.extracted_content with
      | some s => if s = "" then Json.null else JSON_to_dict s
      | none => Json.null),
     ("error", encOptStr r.error),
     ("success", encOptBool r.success),
     ("is_done", encOptBool r.is_done),
     ("include_in_memory", Json.bool r.include_in_memory)]

/-- `ScreenshotPlugin.save_results`.  The write is not wrapped in any
handler, so a failing `open` raises (modelled by `Except.error`). -/
def ScreenshotPlugin.save_results (p : ScreenshotPlugin) (fs : FS)
    (results : List ActionResult) (step_number : Option Int) :
    ScreenshotPlugin × List Effect × Except Unit String :=
  let step := step_number.getD p.current_step
  let (execute_dir, e0) := p.create_execute_dir step
  let results_data := Json.arr (results.map resultEntry)
  let results_path := execute_dir ++ "/results.json"
  if fs results_path then
    (p, e0 ++ [Effect.fileWrite results_path (FileData.jsonText results_data),
               Effect.logInfo ("Results saved to " ++ results_path)],
     Except.ok results_path)
  else (p, e0, Except.error ())

/-- `ScreenshotPlugin.handle_step`: subtract one from the host-reported
step number, set the shadow counter, save the initial screenshot at
result index 0 and the plan, both with the compensated step.  A raise
from `save_plan` propagates (there is no handler here either). -/
def ScreenshotPlugin.handle_step (p : ScreenshotPlugin) (fs : FS)
    (state : BrowserState) (model_output : AgentOutput) (step_number : Int)
    (nowIso : String) : ScreenshotPlugin × List Effect × Except Unit Unit :=
  let actual_step := step_number - 1
  let p1 := { p with current_step := actual_step }
  let (p2, e1, _) := p1.save_screenshot fs state 0 (some actual_step)
  match p2.save_plan fs model_output (some actual_step) nowIso with
  | (p3, e2, Except.ok _) => (p3, e1 ++ e2, Except.ok ())
  | (p3, e2, Except.error u) => (p3, e1 ++ e2, Except.error u)

/-- `ScreenshotPlugin.save_all_plans`: no-op when plan saving is disabled
or the ledger is empty; otherwise one summary file at the base directory
root.  The write is unguarded, so a failing `open` raises. -/
def ScreenshotPlugin.save_all_plans (p : ScreenshotPlugin) (fs : FS)
    (nowStamp : String) : ScreenshotPlugin × List Effect × Except Unit Unit :=
  if p.save_plans = false || p.plans.isEmpty then (p, [], Except.ok ())
  else
    let all_plans_path := p.base_dir ++ "/all_plans_" ++ nowStamp ++ ".json"
    if fs all_plans_path then
      (p, [Effect.fileWrite all_plans_path (FileData.jsonText (Json.arr p.plans)),
           Effect.logInfo ("All plans saved to " ++ all_plans_path)],
       Except.ok ())
    else (p, [], Except.error ())

/-- `ScreenshotPlugin.handle_done`: ignores the history argument and
flushes the ledger via `save_all_plans`. -/
def ScreenshotPlugin.handle_done (p : ScreenshotPlugin) (fs : FS)
    (_history : List Json) (nowStamp : String) :
    ScreenshotPlugin × List Effect × Except Unit Unit :=
  p.save_all_plans fs nowStamp

/-- Oracle for the browser context inside `wrapped_multi_act`: the k-th
(state-fetch, take-screenshot) pair, or `Except.error` when one of the
two awaited collaborator calls raises. -/
def BrowserCalls : Type := Nat → Except Unit (BrowserState × Option String)

/-- `state.screenshot = screenshot_path` guarded by `if screenshot_path:`
(Python truthiness: `None` and the empty string leave the state as is). -/
def applyShot (state : BrowserState) (shotPath : Option String) :
    BrowserState :=
  match shotPath with
  | some sp => if sp = "" then state else { state with screenshot := some sp }
  | none => state

/-- The per-result screenshot loop of `wrapped_multi_act` (one iteration
per result, browser call `i + 1` re-fetched before each save, screenshot
saved at result index `i + 1` for the plugin's current step).  Returns
the accumulated effects and whether the loop finished without a
collaborator call raising; on a raise the remaining iterations and the
subsequent `save_results` are skipped by the enclosing handler. -/
def screenshot_sweep (p : ScreenshotPlugin) (fs : FS) (browser : BrowserCalls) :
    List ActionResult → Nat → List Effect × Bool
  | [], _ => ([], true)
  | _ :: rest, i =>
    match browser (i + 1) with
    | Except.error _ => ([], false)
    | Except.ok (state0, shotPath) =>
      let state := applyShot state0 shotPath
      let (_, e1, _) :=
        p.save_screenshot fs state ((i : Int) + 1) (some p.current_step)
      let (e2, okFlag) := screenshot_sweep p fs browser rest (i + 1)
      (e1 ++ e2, okFlag)

/-- `wrapped_multi_act` from the integration module.  `browser = none`
models a host without a `browser_context` attribute (both recording
blocks are skipped); the original `multi_act` is modelled by its returned
`results`.  Both recording blocks are inside `try/except`, so collaborator
or write failures only log an error; the plugin state — in particular the
shadow counter — is never modified here, and the original results are
always returned. -/
def wrapped_multi_act (p : ScreenshotPlugin) (fs : FS)
    (browser : Option BrowserCalls) (results : List ActionResult) :
    ScreenshotPlugin × List Effect × List ActionResult :=
  let preEffects :=
    match browser with
    | none => []
    | some br =>
      match br 0 with
      | Except.error _ => [Effect.logError ("Error capturing initial screenshot")]
      | Except.ok (state0, shotPath) =>
        let state := applyShot state0 shotPath
        let (_, e1, _) := p.save_screenshot fs state 0 (some p.current_step)
        e1
  let postEffects :=
    match browser with
    | none => []
    | some br =>
      let (e2, okFlag) := screenshot_sweep p fs br results 0
      if okFlag then
        match p.save_results fs results none with
        | (_, e3, Except.ok _) =>
          e2 ++ e3 ++
            [Effect.logInfo ("Saved results and screenshots for step " ++
              toString p.current_step)]
        | (_, e3, Except.error _) =>
          e2 ++ e3 ++
            [Effect.logError ("Error capturing screenshots and saving results")]
      else
        e2 ++ [Effect.logError ("Error capturing screenshots and saving results")]
  (p, preEffects ++ postEffects, results)

/-- Paths of the file writes in an effect trace. -/
def writtenPaths (effects : List Effect) : List String :=
  effects.filterMap fun e =>
    match e with
    | Effect.fileWrite path _ => some path
    | _ => none

/-- First value bound to `key` in an association list. -/
def lookupKey (key : String) : List (String × Json) → Option Json
  | [] => none
  | (k, v) :: rest => if k = key then some v else lookupKey key rest

/-- Field lookup in a JSON object. -/
def objLookup (key : String) (j : Json) : Option Json :=
  match j with
  | Json.obj kvs => lookupKey key kvs
  | _ => none

/-- Whether an `Except` value is a success (the call did not raise). -/
def exceptIsOk : Except Unit String → Bool
  | Except.ok _ => true
  | Except.error _ => false

/-! Concrete fixtures used by witnesses and counterexamples. -/

/-- File-system oracle on which every write succeeds. -/
def fsTrue : FS := fun _ => true

/-- File-system oracle on which every write raises. -/
def fsFail : FS := fun _ => false

/-- A freshly constructed plugin with the default configuration. -/
def pW : ScreenshotPlugin :=
  { base_dir := "screenshots", save_plans := true, full_page := true,
    current_step := 0, plans := [], current_timestamp := "20250101_120000" }

/-- A browser state carrying the base64 encoding of the bytes `ABC`. -/
def stW : BrowserState := { screenshot := some ("QUJD") }

/-- A minimal agent output. -/
def moW : AgentOutput := { current_state := none, action := [] }

/-- An action result with every optional field absent. -/
def rEmpty : ActionResult :=
  { extracted_content := none, error := none, success := none,
    is_done := none, include_in_memory := false }

/-- `save_screenshot` returns the plugin state unchanged in every branch. -/
theorem save_screenshot_state_eq (p : ScreenshotPlugin) (fs : FS)
    (state : BrowserState) (ri : Int) (sn : Option Int) :
    (p.save_screenshot fs state ri sn).1 = p := by
  unfold ScreenshotPlugin.save_screenshot
  rcases state.screenshot with _ | shot
  · rfl
  · simp only
    split
    · rfl
    · rcases b64decode shot with _ | bytes
      · rfl
      · simp only
        split <;> rfl

/-- `save_plan` only ever appends to the ledger: all other fields, the
session timestamp included, are unchanged. -/
theorem save_plan_timestamp_eq (p : ScreenshotPlugin) (fs : FS)
    (mo : AgentOutput) (sn : Option Int) (t : String) :
    (p.save_plan fs mo sn t).1.current_timestamp = p.current_timestamp := by
  unfold ScreenshotPlugin.save_plan
  split
  · rfl
  · simp only
    split <;> rfl

/-- C8: for every step number `S` the step directory path equals
`base_dir ++ "/execute_" ++ fmt03d S ++ "_" ++ current_timestamp`, where
`current_timestamp` is fixed at construction (`ScreenshotPlugin.init`
sets it and no operation ever modifies it), so any two of
`save_screenshot`, `save_plan`, `save_results` called with the same step
number on the same plugin instance compute the same directory. -/
theorem execute_dir_deterministic (p : ScreenshotPlugin) (S : Int) (fs : FS)
    (state : BrowserState) (mo : AgentOutput) (rs : List ActionResult)
    (ri n : Int) (sn : Option Int) (t base : String) (sp fp : Bool)
    (br : Option BrowserCalls) :
    (p.create_execute_dir S).1 =
      p.base_dir ++ "/execute_" ++ fmt03d S ++ "_" ++ p.current_timestamp
    ∧ (p.create_execute_dir S).1 = dirOf p S
    ∧ ((ScreenshotPlugin.init base sp fp t).1).current_timestamp = t
    ∧ (p.save_screenshot fs state ri sn).1.current_timestamp = p.current_timestamp
    ∧ (p.save_plan fs mo sn t).1.current_timestamp = p.current_timestamp
    ∧ (p.save_results fs rs sn).1.current_timestamp = p.current_timestamp
    ∧ (p.handle_step fs state mo n t).1.current_timestamp = p.current_timestamp
    ∧ (p.save_all_plans fs t).1.current_timestamp = p.current_timestamp
    ∧ (wrapped_multi_act p fs br rs).1.current_timestamp = p.current_timestamp := by
  refine ⟨rfl, rfl, rfl, ?_, save_plan_timestamp_eq p fs mo sn t, ?_, ?_, ?_, rfl⟩
  · rw [save_screenshot_state_eq]
  · unfold ScreenshotPlugin.save_results ScreenshotPlugin.create_execute_dir
    simp only
    split <;> rfl
  · unfold ScreenshotPlugin.handle_step
    simp only
    rw [save_screenshot_state_eq]
    have h2 := save_plan_timestamp_eq
      { p with current_step := n - 1 } fs mo (some (n - 1)) t
    rcases hsp : ({ p with current_step := n - 1 } : ScreenshotPlugin).save_plan
        fs mo (some (n - 1)) t with ⟨p3, e2, r | r⟩ <;>
      rw [hsp] at h2 <;> simpa using h2
  · unfold ScreenshotPlugin.save_all_plans
    split
    · rfl
    · simp only
      split <;> rfl

/-- C6: calling `save_screenshot` with a browser state whose screenshot
field is absent does not raise, records no file write (only the
idempotent directory creation), logs a warning, and still returns the
intended screenshot path for the resolved step and result index. -/
theorem save_screenshot_missing_screenshot (p : ScreenshotPlugin) (fs : FS)
    (state : BrowserState) (ri : Int) (sn : Option Int)
    (h : state.screenshot = none) :
    p.save_screenshot fs state ri sn =
      (p,
       [Effect.mkdir (dirOf p (sn.getD p.current_step)),
        Effect.logWarning ("No screenshot available in browser state")],
       Except.ok (dirOf p (sn.getD p.current_step) ++ "/screenshot_" ++
         toString ri ++ ".png")) := by
  simp [ScreenshotPlugin.save_screenshot, ScreenshotPlugin.create_execute_dir,
    dirOf, h]

/-- Witness for C6 at a concrete plugin and state. -/
theorem save_screenshot_missing_screenshot_witness :
    ScreenshotPlugin.save_screenshot pW fsTrue { screenshot := none } 2 none =
      (pW,
       [Effect.mkdir (dirOf pW 0),
        Effect.logWarning ("No screenshot available in browser state")],
       Except.ok (dirOf pW 0 ++ "/screenshot_" ++ toString (2 : Int) ++ ".png")) :=
  save_screenshot_missing_screenshot pW fsTrue { screenshot := none } 2 none rfl

/-- C7: `save_all_plans` writes nothing when plan saving is disabled or
the ledger is empty; otherwise one call produces exactly one write of a
timestamped summary file at the base directory root containing the full
ledger. -/
theorem save_all_plans_noop_or_one_file (p : ScreenshotPlugin) (fs : FS)
    (now : String) :
    ((p.save_plans = false ∨ p.plans = []) →
      p.save_all_plans fs now = (p, [], Except.ok ())) ∧
    (p.save_plans = true → p.plans ≠ [] →
      fs (p.base_dir ++ "/all_plans_" ++ now ++ ".json") = true →
      p.save_all_plans fs now =
        (p,
         [Effect.fileWrite (p.base_dir ++ "/all_plans_" ++ now ++ ".json")
            (FileData.jsonText (Json.arr p.plans)),
          Effect.logInfo ("All plans saved to " ++
            (p.base_dir ++ "/all_plans_" ++ now ++ ".json"))],
         Except.ok ())) := by
  constructor
  · intro h
    rcases h with h | h <;>
      simp [ScreenshotPlugin.save_all_plans, h]
  · intro h1 h2 h3
    simp [ScreenshotPlugin.save_all_plans, h1, h2, h3]

/-- A plugin with plan saving disabled. -/
def pDis : ScreenshotPlugin := { pW with save_plans := false }

/-- A plugin whose ledger holds one record. -/
def pLedger : ScreenshotPlugin := { pW with plans := [Json.null] }

/-- Witness for C7: the disabled plugin writes nothing; the plugin with a
non-empty ledger writes exactly the summary file. -/
theorem save_all_plans_noop_or_one_file_witness :
    ScreenshotPlugin.save_all_plans pDis fsTrue "T" = (pDis, [], Except.ok ()) ∧
    ScreenshotPlugin.save_all_plans pLedger fsTrue "T" =
      (pLedger,
       [Effect.fileWrite ("screenshots/all_plans_T.json")
          (FileData.jsonText (Json.arr [Json.null])),
        Effect.logInfo ("All plans saved to screenshots/all_plans_T.json")],
       Except.ok ()) :=
  ⟨(save_all_plans_noop_or_one_file pDis fsTrue "T").1 (Or.inl rfl),
   (save_all_plans_noop_or_one_file pLedger fsTrue "T").2 rfl
     (by simp [pLedger, pW]) rfl⟩

/-- C10: a result whose extracted content is the empty string is stored
with a `null` extracted content (the branch is chosen by Python
truthiness, and `""` is falsy), not with the raw empty string. -/
theorem save_results_empty_string_content (r : ActionResult)
    (h : r.extracted_content = some "") :
    objLookup ("extracted_content") (resultEntry r) = some Json.null ∧
    Json.null ≠ Json.str "" := by
  refine ⟨?_, by simp⟩
  simp [resultEntry, objLookup, lookupKey, h]

/-- An action result with empty extracted content. -/
def rEmptyStr : ActionResult := { rEmpty with extracted_content := some "" }

/-- Witness for C10 at a concrete result. -/
theorem save_results_empty_string_content_witness :
    objLookup ("extracted_content") (resultEntry rEmptyStr) = some Json.null ∧
    Json.null ≠ Json.str "" :=
  save_results_empty_string_content rEmptyStr rfl

/-- C5: for a result with non-empty extracted content, the stored
`extracted_content` is: the parsed structure when the text contains a
fenced `json` block whose captured content parses; the original raw text
when the captured content fails to parse; and the original raw text when
there is no fenced block at all. -/
theorem save_results_structured_content (r : ActionResult) (s : String)
    (hc : r.extracted_content = some s) (hne : s ≠ "") :
    (∀ seg v, fenceSearch s.data = some seg → jsonParse seg = some v →
      objLookup ("extracted_content") (resultEntry r) = some v) ∧
    (∀ seg, fenceSearch s.data = some seg → jsonParse seg = none →
      objLookup ("extracted_content") (resultEntry r) = some (Json.str s)) ∧
    (fenceSearch s.data = none →
      objLookup ("extracted_content") (resultEntry r) = some (Json.str s)) := by
  refine ⟨?_, ?_, ?_⟩
  · intro seg v hf hp
    simp [resultEntry, objLookup, lookupKey, hc, hne, JSON_to_dict, hf, hp]
  · intro seg hf hp
    simp [resultEntry, objLookup, lookupKey, hc, hne, JSON_to_dict, hf, hp]
  · intro hf
    simp [resultEntry, objLookup, lookupKey, hc, hne, JSON_to_dict, hf]

/-- A result whose extracted content holds a parseable fenced block. -/
def rJson : ActionResult :=
  { rEmpty with extracted_content := some ("pre ```json [1, 2] ``` post") }

/-- A result whose fenced block fails to parse. -/
def rBadJson : ActionResult :=
  { rEmpty with extracted_content := some ("```json [1, 2 ```") }

/-- Witness for C5: the valid fenced block is stored parsed, the invalid
one is stored as the raw original text. -/
theorem save_results_structured_content_witness :
    objLookup ("extracted_content") (resultEntry rJson) =
      some (Json.arr [Json.num 1 0, Json.num 2 0]) ∧
    objLookup ("extracted_content") (resultEntry rBadJson) =
      some (Json.str "```json [1, 2 ```") :=
  ⟨(save_results_structured_content rJson ("pre ```json [1, 2] ``` post") rfl
      (by simp)).1 ("[1, 2]") (Json.arr [Json.num 1 0, Json.num 2 0]) rfl rfl,
   (save_results_structured_content rBadJson ("```json [1, 2 ```") rfl
      (by simp)).2.1 ("[1, 2") rfl rfl⟩

/-- C1: for a host-reported step number `N + 1`, `handle_step` sets the
shadow counter to `N`, saves the initial screenshot at result index 0
for step `N` and the plan for step `N`; every artifact path in the trace
lies under the directory computed for step `N`. -/
theorem handle_step_off_by_one (p : ScreenshotPlugin) (fs : FS)
    (state : BrowserState) (mo : AgentOutput) (N : Nat) (nowIso shot : String)
    (bytes : List Nat) (hshot : state.screenshot = some shot) (hne : shot ≠ "")
    (hdec : b64decode shot = some bytes) (hfs : ∀ q, fs q = true)
    (hplans : p.save_plans = true) :
    p.handle_step fs state mo ((N : Int) + 1) nowIso =
      ({ p with current_step := (N : Int),
                plans := p.plans ++ [planJson (N : Int) nowIso mo] },
       [Effect.mkdir (dirOf p (N : Int)),
        Effect.fileWrite (dirOf p (N : Int) ++ "/screenshot_" ++
          toString (0 : Int) ++ ".png") (FileData.bin bytes),
        Effect.logInfo ("Screenshot saved to " ++
          (dirOf p (N : Int) ++ "/screenshot_" ++ toString (0 : Int) ++ ".png")),
        Effect.mkdir (dirOf p (N : Int)),
        Effect.fileWrite (dirOf p (N : Int) ++ "/plan.json")
          (FileData.jsonText (planJson (N : Int) nowIso mo)),
        Effect.logInfo ("Plan saved to " ++
          (dirOf p (N : Int) ++ "/plan.json"))],
       Except.ok ()) := by
  have harith : ((N : Int) + 1) - 1 = (N : Int) := by ring
  simp [ScreenshotPlugin.handle_step, ScreenshotPlugin.save_screenshot,
    ScreenshotPlugin.save_plan, ScreenshotPlugin.create_execute_dir, dirOf,
    planJson, hshot, hne, hdec, hfs, hplans, harith]

/-- Witness for C1: host-reported step 3 lands every artifact in the
directory for step 2 and leaves the shadow counter at 2. -/
theorem handle_step_off_by_one_witness :
    ScreenshotPlugin.handle_step pW fsTrue stW moW 3 "T" =
      ({ pW with current_step := 2, plans := [planJson 2 "T" moW] },
       [Effect.mkdir ("screenshots/execute_002_20250101_120000"),
        Effect.fileWrite
          ("screenshots/execute_002_20250101_120000/screenshot_0.png")
          (FileData.bin [65, 66, 67]),
        Effect.logInfo
          ("Screenshot saved to screenshots/execute_002_20250101_120000/screenshot_0.png"),
        Effect.mkdir ("screenshots/execute_002_20250101_120000"),
        Effect.fileWrite
          ("screenshots/execute_002_20250101_120000/plan.json")
          (FileData.jsonText (planJson 2 "T" moW)),
        Effect.logInfo
          ("Plan saved to screenshots/execute_002_20250101_120000/plan.json")],
       Except.ok ()) := by
  have h := handle_step_off_by_one pW fsTrue stW moW 2 "T" ("QUJD")
    [65, 66, 67] rfl (by simp) rfl (fun q => rfl) rfl
  exact h

/-- The four fields of C9's round-trip property, read back from one
serialized entry. -/
def fieldsMatch (r : ActionResult) (e : Json) : Prop :=
  objLookup ("success") e = some (encOptBool r.success) ∧
  objLookup ("error") e = some (encOptStr r.error) ∧
  objLookup ("is_done") e = some (encOptBool r.is_done) ∧
  objLookup ("include_in_memory") e = some (Json.bool r.include_in_memory)

/-- C9: `save_results` writes exactly the list `R.map resultEntry` to
`results.json`; that list has the same length as `R`, and entrywise the
`success`, `error`, `is_done` and `include_in_memory` fields read back
from the document equal the source result's fields. -/
theorem save_results_roundtrip (p : ScreenshotPlugin) (fs : FS)
    (R : List ActionResult) (sn : Option Int)
    (hfs : fs (dirOf p (sn.getD p.current_step) ++ "/results.json") = true) :
    p.save_results fs R sn =
      (p,
       [Effect.mkdir (dirOf p (sn.getD p.current_step)),
        Effect.fileWrite (dirOf p (sn.getD p.current_step) ++ "/results.json")
          (FileData.jsonText (Json.arr (R.map resultEntry))),
        Effect.logInfo ("Results saved to " ++
          (dirOf p (sn.getD p.current_step) ++ "/results.json"))],
       Except.ok (dirOf p (sn.getD p.current_step) ++ "/results.json")) ∧
    (R.map resultEntry).length = R.length ∧
    List.Forall₂ fieldsMatch R (R.map resultEntry) := by
  refine ⟨?_, by simp, ?_⟩
  · simp only [dirOf] at hfs
    simp [ScreenshotPlugin.save_results, ScreenshotPlugin.create_execute_dir,
      dirOf, hfs]
  · induction R with
    | nil => exact List.Forall₂.nil
    | cons r rs ih => exact List.Forall₂.cons ⟨rfl, rfl, rfl, rfl⟩ ih

/-- Witness for C9 on a one-element results list. -/
theorem save_results_roundtrip_witness :
    ScreenshotPlugin.save_results pW fsTrue [rEmpty] none =
      (pW,
       [Effect.mkdir ("screenshots/execute_000_20250101_120000"),
        Effect.fileWrite
          ("screenshots/execute_000_20250101_120000/results.json")
          (FileData.jsonText (Json.arr [resultEntry rEmpty])),
        Effect.logInfo
          ("Results saved to screenshots/execute_000_20250101_120000/results.json")],
       Except.ok ("screenshots/execute_000_20250101_120000/results.json")) ∧
    ([rEmpty].map resultEntry).length = [rEmpty].length ∧
    List.Forall₂ fieldsMatch [rEmpty] ([rEmpty].map resultEntry) :=
  save_results_roundtrip pW fsTrue [rEmpty] none rfl

/-- A plugin mid-run, with the shadow counter at 5. -/
def pC2 : ScreenshotPlugin := { pW with current_step := 5 }

/-- A browser state with no screenshot of its own. -/
def stNone : BrowserState := { screenshot := none }

/-- A browser oracle on which every (get-state, take-screenshot) pair
succeeds and yields the base64 document `QUJD`. -/
def brW : BrowserCalls := fun _ => Except.ok (stNone, some ("QUJD"))

/-- C2 counterexample: one full `wrapped_multi_act` call on a plugin with
shadow counter 5.  The results batch is persisted (the trace writes
`results.json` for step 5) and yet the counter afterwards is still 5,
not 5 + 1: the wrapped method contains no counter advance at all. -/
theorem wrapped_multi_act_no_advance :
    (wrapped_multi_act pC2 fsTrue (some brW) [rEmpty]).1.current_step = 5 ∧
    (5 : Int) ≠ 5 + 1 ∧
    writtenPaths (wrapped_multi_act pC2 fsTrue (some brW) [rEmpty]).2.1 =
      ["screenshots/execute_005_20250101_120000/screenshot_0.png",
       "screenshots/execute_005_20250101_120000/screenshot_1.png",
       "screenshots/execute_005_20250101_120000/results.json"] :=
  ⟨rfl, by decide, rfl⟩

/-- C2 amended: `wrapped_multi_act` persists the batch best-effort but
returns the plugin state — in particular the shadow counter — entirely
unchanged, and always returns the original results; the counter is only
moved by `handle_step`. -/
theorem wrapped_multi_act_state_unchanged (p : ScreenshotPlugin) (fs : FS)
    (browser : Option BrowserCalls) (results : List ActionResult) :
    (wrapped_multi_act p fs browser results).1 = p ∧
    (wrapped_multi_act p fs browser results).2.2 = results :=
  ⟨rfl, rfl⟩

/-- C3 counterexample: a failing write makes `save_plan`, `save_results`
and `save_all_plans` raise — their `open`/`dump` calls are outside any
`try/except`, so the error propagates to the caller. -/
theorem plugin_write_failure_raises :
    (ScreenshotPlugin.save_plan pW fsFail moW none "T").2.2 =
      Except.error () ∧
    (ScreenshotPlugin.save_results pW fsFail [rEmpty] none).2.2 =
      Except.error () ∧
    (ScreenshotPlugin.save_all_plans pLedger fsFail "T").2.2 =
      Except.error () :=
  ⟨rfl, rfl, rfl⟩

/-- C3 amended: the catch-all protection exists only inside
`save_screenshot` (decode and write) and around the two recording blocks
of the wrapped execution method: `save_screenshot` never raises for any
file system and input, and `wrapped_multi_act` always returns the
original results; the other save operations propagate write failures. -/
theorem screenshot_and_wrapper_errors_contained (p : ScreenshotPlugin)
    (fs : FS) (state : BrowserState) (ri : Int) (sn : Option Int)
    (br : Option BrowserCalls) (results : List ActionResult) :
    exceptIsOk (p.save_screenshot fs state ri sn).2.2 = true ∧
    (wrapped_multi_act p fs br results).2.2 = results := by
  refine ⟨?_, rfl⟩
  unfold ScreenshotPlugin.save_screenshot
  rcases state.screenshot with _ | shot
  · rfl
  · simp only
    split
    · rfl
    · rcases b64decode shot with _ | bytes
      · rfl
      · simp only
        split <;> rfl

/-- C4 counterexample: for a one-element results batch, the post-execution
sweep's only write goes to `screenshot_1.png`, not to `screenshot_0.png`
as an index range of 0..N-1 would require. -/
theorem sweep_skips_index_zero :
    writtenPaths (screenshot_sweep pC2 fsTrue brW [rEmpty] 0).1 =
      ["screenshots/execute_005_20250101_120000/screenshot_1.png"] ∧
    ("screenshots/execute_005_20250101_120000/screenshot_1.png" : String) ≠
      "screenshots/execute_005_20250101_120000/screenshot_0.png" :=
  ⟨rfl, by decide⟩

/-- The screenshot path the sweep computes for result index `k`. -/
def sweepPath (p : ScreenshotPlugin) (k : Nat) : String :=
  dirOf p p.current_step ++ "/screenshot_" ++ toString (k : Int) ++ ".png"

/-- `save_screenshot` with a present, decodable screenshot and a working
file system: the trace is exactly directory creation, one write, one log
line. -/
theorem save_screenshot_writes (p : ScreenshotPlugin) (fs : FS)
    (state : BrowserState) (ri : Int) (sn : Option Int) (shot : String)
    (bytes : List Nat) (hshot : state.screenshot = some shot) (hne : shot ≠ "")
    (hdec : b64decode shot = some bytes) (hfs : ∀ q, fs q = true) :
    p.save_screenshot fs state ri sn =
      (p,
       [Effect.mkdir (dirOf p (sn.getD p.current_step)),
        Effect.fileWrite (dirOf p (sn.getD p.current_step) ++ "/screenshot_" ++
          toString ri ++ ".png") (FileData.bin bytes),
        Effect.logInfo ("Screenshot saved to " ++
          (dirOf p (sn.getD p.current_step) ++ "/screenshot_" ++
            toString ri ++ ".png"))],
       Except.ok (dirOf p (sn.getD p.current_step) ++ "/screenshot_" ++
         toString ri ++ ".png")) := by
  simp [ScreenshotPlugin.save_screenshot, ScreenshotPlugin.create_execute_dir,
    dirOf, hshot, hne, hdec, hfs]

/-- C4 amended: when every browser call succeeds with a decodable
screenshot and the file system accepts every write, the sweep for an
`N`-result batch starting at loop index `i` saves exactly one screenshot
per result, at result indices `i+1 .. i+N` (so indices `1 .. N` for the
actual call with `i = 0`), re-consulting the browser oracle before each
save. -/
theorem sweep_saves_indices_one_to_N (p : ScreenshotPlugin) (fs : FS)
    (br : BrowserCalls) (stf : Nat → BrowserState) (shf : Nat → String)
    (byf : Nat → List Nat)
    (hbr : ∀ k, br k = Except.ok (stf k, some (shf k)))
    (hne : ∀ k, shf k ≠ "") (hdec : ∀ k, b64decode (shf k) = some (byf k))
    (hfs : ∀ q, fs q = true) :
    ∀ (results : List ActionResult) (i : Nat),
    writtenPaths (screenshot_sweep p fs br results i).1 =
      (List.range results.length).map (fun j => sweepPath p (i + j + 1)) ∧
    (screenshot_sweep p fs br results i).2 = true := by
  intro results
  induction results with
  | nil => intro i; exact ⟨rfl, rfl⟩
  | cons r rs ih =>
    intro i
    have hrec := ih (i + 1)
    have hsv := save_screenshot_writes p fs
      { stf (i + 1) with screenshot := some (shf (i + 1)) } ((i : Int) + 1)
      (some p.current_step) (shf (i + 1)) (byf (i + 1)) rfl (hne (i + 1))
      (hdec (i + 1)) hfs
    unfold screenshot_sweep
    rw [hbr (i + 1)]
    simp only [applyShot, if_neg (hne (i + 1))]
    rw [hsv]
    simp only [writtenPaths, List.filterMap_append, Option.getD_some]
    constructor
    · simp only [writtenPaths] at hrec
      rw [hrec.1]
      simp only [List.filterMap, List.length_cons, List.range_succ_eq_map,
        List.map_cons, List.map_map, List.singleton_append,
        Function.comp_def]
      congr 1
      apply List.map_congr_left
      intro j _
      show sweepPath p (i + 1 + j + 1) = sweepPath p (i + (j + 1) + 1)
      congr 1
      omega
    · exact hrec.2

/-- Witness for the amended C4 on a two-result batch: the sweep writes
exactly the screenshots for indices 1 and 2. -/
theorem sweep_saves_indices_one_to_N_witness :
    writtenPaths (screenshot_sweep pC2 fsTrue brW [rEmpty, rEmpty] 0).1 =
      (List.range 2).map (fun j => sweepPath pC2 (0 + j + 1)) ∧
    (screenshot_sweep pC2 fsTrue brW [rEmpty, rEmpty] 0).2 = true := by
  have hq : ("QUJD" : String) ≠ "" := by decide
  exact sweep_saves_indices_one_to_N pC2 fsTrue brW (fun _ => stNone)
    (fun _ => "QUJD") (fun _ => [65, 66, 67]) (fun _ => rfl)
    (fun _ => hq) (fun _ => rfl) (fun _ => rfl) [rEmpty, rEmpty] 0
